import Mathlib

/-!
Shallow embedding of the gonnel tunnel lifecycle controller
(package `gonnel`: `tunnel.go` and `gonnel.go`).

The HTTP control API, the subprocess and the goroutine scheduler are the
environment of the program; they enter the embedding as explicit
parameters (an outcome function per attempt, a schedule function for the
goroutine spawn sites).  Everything the Go code itself computes is
translated directly.
-/

/-- Tunnel descriptor: struct `Tunnel` of `tunnel.go`.  The Go field
`Proto` has type `Protocol = int`, embedded as `Int`. -/
structure Tunnel where
  proto : Int
  name : String
  localAddress : String
  auth : String
  inspect : Bool
  remoteAddress : String
  isCreated : Bool
deriving DecidableEq

instance : Inhabited Tunnel := ⟨⟨0, "", "", "", false, "", false⟩⟩

/-- Constant `maxRetries = 100` of `tunnel.go`. -/
def maxRetries : Nat := 100

/-- Outcome of one body execution of the `CreateTunnel` retry loop, as
decided by the environment (the agent control API): a transport or
marshal or decode failure carrying its error text, a non-2xx response
carrying its body text, or a 2xx response whose decoded record carries
`PublicURL`. -/
inductive CreateAttemptOutcome where
  | transportFail : String → CreateAttemptOutcome
  | badStatus : String → CreateAttemptOutcome
  | success : String → CreateAttemptOutcome
deriving DecidableEq

/-- Outcome of one body execution of the `CloseTunnel` retry loop: a
transport failure, a non-2xx response, or a 2xx response. -/
inductive CloseAttemptOutcome where
  | transportFail : String → CloseAttemptOutcome
  | badStatus : String → CloseAttemptOutcome
  | success : CloseAttemptOutcome
deriving DecidableEq

/-- Whether a create attempt fails (every outcome except `success`). -/
def CreateAttemptOutcome.fails : CreateAttemptOutcome → Bool
  | .success _ => false
  | _ => true

/-- Whether a close attempt fails (every outcome except `success`). -/
def CloseAttemptOutcome.fails : CloseAttemptOutcome → Bool
  | .success => false
  | _ => true

/-- Error value returned by the anonymous function body of
`CreateTunnel` for a given attempt outcome.  A non-2xx response is
wrapped as `errors.New("error api: " + body)` (`tunnel.go` line 65). -/
def CreateAttemptOutcome.errMsg : CreateAttemptOutcome → Option String
  | .transportFail e => some e
  | .badStatus body => some ("error api: " ++ body)
  | .success _ => none

/-- Error value returned by the anonymous function body of
`CloseTunnel` for a given attempt outcome (`tunnel.go` line 110). -/
def CloseAttemptOutcome.errMsg : CloseAttemptOutcome → Option String
  | .transportFail e => some e
  | .badStatus body => some ("error api: " ++ body)
  | .success => none

/-- One execution of the `CreateTunnel` loop body (`tunnel.go` lines
36 to 76): on any failure the descriptor is untouched and the error is
returned; on success `t.RemoteAddress = record.PublicURL` and
`t.IsCreated = true` are assigned. -/
def createAttempt (t : Tunnel) (o : CreateAttemptOutcome) : Tunnel × Option String :=
  match o with
  | .success url => ({ t with remoteAddress := url, isCreated := true }, none)
  | o => (t, o.errMsg)

/-- One execution of the `CloseTunnel` loop body (`tunnel.go` lines
92 to 117): on any failure the descriptor is untouched; on success
`t.RemoteAddress = ""` and `t.IsCreated = false` are assigned. -/
def closeAttempt (t : Tunnel) (o : CloseAttemptOutcome) : Tunnel × Option String :=
  match o with
  | .success => ({ t with remoteAddress := "", isCreated := false }, none)
  | o => (t, o.errMsg)

/-- Result of a whole retry loop: the final descriptor, the final value
of the named return `err`, and how many times the loop body ran. -/
structure RetryResult where
  tunnel : Tunnel
  err : Option String
  attempts : Nat
deriving DecidableEq

/-- The shared retry-loop shape of `CreateTunnel` and `CloseTunnel`
(`for attempt := uint(0); attempt <= maxRetries; attempt++` with
`if err == nil { break }`): run the body; stop on success; otherwise
retry while attempts remain, and after the last one return the last
error.  `remaining` counts the iterations still allowed after the
current one, so the loop of `tunnel.go` is `retryLoop step 0 maxRetries`. -/
def retryLoop (step : Nat → Tunnel → Tunnel × Option String) :
    Nat → Nat → Tunnel → RetryResult
  | attempt, 0, t =>
    match step attempt t with
    | (t1, none) => ⟨t1, none, 1⟩
    | (t1, some e) => ⟨t1, some e, 1⟩
  | attempt, r + 1, t =>
    match step attempt t with
    | (t1, none) => ⟨t1, none, 1⟩
    | (t1, some _) =>
      let res := retryLoop step (attempt + 1) r t1
      ⟨res.tunnel, res.err, res.attempts + 1⟩

/-- Handle to the supervised subprocess: the observable results of the
two OS calls the controller can make on it (`Process.Kill` and
`Process.Signal`); `none` models a nil OS error. -/
structure ProcHandle where
  killResult : Option String
  signalResult : Option String
deriving DecidableEq

/-- Struct `Client` of `gonnel.go`: the tunnel registry, the control
API address, the API logging flag and the running command handle
(`runningCmd`, nil until `StartServer` populates it). -/
structure Client where
  tunnels : List Tunnel
  webUIAddress : String
  logApi : Bool
  runningCmd : Option ProcHandle
deriving DecidableEq

/-- Method `Client.CreateTunnel` of `tunnel.go`.  The control API is
abstracted as the outcome each attempt would observe. -/
def Client.CreateTunnel (api : Nat → CreateAttemptOutcome) (t : Tunnel) : RetryResult :=
  retryLoop (fun k u => createAttempt u (api k)) 0 maxRetries t

/-- Method `Client.CloseTunnel` of `tunnel.go`. -/
def Client.CloseTunnel (api : Nat → CloseAttemptOutcome) (t : Tunnel) : RetryResult :=
  retryLoop (fun k u => closeAttempt u (api k)) 0 maxRetries t

/-- List of descriptors `Client.ConnectAll` (`gonnel.go` lines 310 to
318) hands to spawned `CreateTunnel` goroutines.  The loop body passes
the range variable as an argument (`go func(x *Tunnel) { ... }(t)`), so
each goroutine receives exactly the descriptor of its own iteration,
independent of when it runs. -/
def connectTargets (c : Client) : List Tunnel :=
  c.tunnels.filter fun t => !t.isCreated

/-- Final registry computed by `ConnectAll`: descriptors whose
`IsCreated` flag is already true are skipped, every other descriptor is
mutated in place by its own `CreateTunnel` goroutine.  The operations
run concurrently but each one owns its descriptor, so the final state
is their pointwise composition; `apis i` is the attempt-outcome stream
the goroutine of position `i` observes. -/
def connectResultAux (apis : Nat → Nat → CreateAttemptOutcome) (i : Nat) :
    List Tunnel → List Tunnel
  | [] => []
  | t :: ts =>
    (if t.isCreated then t else (Client.CreateTunnel (apis i) t).tunnel) ::
      connectResultAux apis (i + 1) ts

/-- Method `Client.ConnectAll` of `gonnel.go`: an empty registry is
rejected before any network call; otherwise all creations run, the
wait group joins them, and `nil` is returned regardless of individual
failures.  The value is the error result paired with the final registry. -/
def Client.ConnectAll (apis : Nat → Nat → CreateAttemptOutcome) (c : Client) :
    Except String (List Tunnel) :=
  if c.tunnels.length < 1 then Except.error "need at least 1 tunnel to connect"
  else Except.ok (connectResultAux apis 0 c.tunnels)

/-- List of descriptors the goroutines of `Client.DisconnectAll`
(`gonnel.go` lines 333 to 341) hand to `CloseTunnel`.  Unlike
`ConnectAll`, the loop body captures the range variable `t` in the
closure (`go func() { c.CloseTunnel(t) ... }()`) instead of passing it
as an argument; before Go 1.22 one variable is shared by all
iterations, so the goroutine spawned at iteration `i` reads whatever
the variable holds when the goroutine executes.  `sched i` is the
iteration whose value that goroutine observes; a schedule is legal when
`i ≤ sched i < length` (the goroutine cannot run before it is spawned,
and the variable never holds anything past the last element). -/
def disconnectTargetsAux (all : List Tunnel) (sched : Nat → Nat) (i : Nat) :
    List Tunnel → List Tunnel
  | [] => []
  | t :: ts =>
    if t.isCreated then all.getD (sched i) default :: disconnectTargetsAux all sched (i + 1) ts
    else disconnectTargetsAux all sched (i + 1) ts

/-- Spawn-site targets of `DisconnectAll` under a goroutine schedule. -/
def disconnectTargets (all : List Tunnel) (sched : Nat → Nat) : List Tunnel :=
  disconnectTargetsAux all sched 0 all

/-- Whether a goroutine schedule is realisable for a registry of `n`
descriptors: each goroutine runs no earlier than its spawn iteration
and reads a value the shared range variable actually held. -/
def ValidSched (n : Nat) (sched : Nat → Nat) : Prop :=
  ∀ i, i < n → i ≤ sched i ∧ sched i < n

/-- Error or success result of `Client.DisconnectAll`: an empty
registry is rejected before any network call, otherwise the goroutines
are joined and `nil` is returned. -/
def Client.DisconnectAll (c : Client) : Except String Unit :=
  if c.tunnels.length < 1 then Except.error "need at least 1 tunnel to disconnect"
  else Except.ok ()

/-- Go type `Protocol int` of `gonnel.go`. -/
abbrev Protocol := Int

/-- Constant `HTTP Protocol = iota` (value 0). -/
def HTTP : Protocol := 0

/-- Constant `TCP` (value 1). -/
def TCP : Protocol := 1

/-- Constant `TLS` (value 2). -/
def TLS : Protocol := 2

/-- Array `protocols = [...]string{"http", "tcp", "tls"}`. -/
def protocols : List String := ["http", "tcp", "tls"]

/-- Method `func (p Protocol) String() string { return protocols[p] }`.
Go array indexing bounds-checks at run time: an index below 0 or at or
above 3 raises an index-out-of-range run-time error, embedded as
`none`. -/
def Protocol.String (p : Int) : Option String :=
  if p < 0 then none else protocols.get? p.toNat

/-- Method `Client.Close` of `gonnel.go` returns
`c.runningCmd.Process.Kill()`.  When no server was started,
`runningCmd` is nil and the field selection dereferences a nil pointer:
a run-time fault, not a returned error.  `none` embeds that fault;
`some r` embeds a normal return whose value is the OS-call result. -/
def Client.Close (c : Client) : Option (Option String) :=
  match c.runningCmd with
  | none => none
  | some p => some p.killResult

/-- Method `Client.Signal` of `gonnel.go` returns
`c.runningCmd.Process.Signal(signal)`, with the same nil dereference
when no process is running. -/
def Client.Signal (c : Client) : Option (Option String) :=
  match c.runningCmd with
  | none => none
  | some p => some p.signalResult

/-- Character class `\d` of the Go regular expressions. -/
def isDigit (c : Char) : Bool := '0' ≤ c && c ≤ '9'

/-- Consume one or more leading digits (`\d+`, greedy): the matched
digits and the rest, or `none` when no digit leads. -/
def digits1 (s : List Char) : Option (List Char × List Char) :=
  match s.takeWhile isDigit with
  | [] => none
  | d => some (d, s.dropWhile isDigit)

/-- Consume one expected literal character. -/
def expectChar (c : Char) : List Char → Option (List Char)
  | [] => none
  | x :: xs => if x = c then some xs else none

/-- Match the pattern `webURI` of `gonnel.go`,
`\d+\.\d+\.\d+\.\d+:\d+`, at the head of the input: the matched text
and the rest.  Every quantifier is on digits and every separator is a
non-digit, so the greedy deterministic parse coincides with the RE2
match. -/
def matchIPPort (s : List Char) : Option (List Char × List Char) := do
  let (d1, r1) ← digits1 s
  let r2 ← expectChar '.' r1
  let (d2, r3) ← digits1 r2
  let r4 ← expectChar '.' r3
  let (d3, r5) ← digits1 r4
  let r6 ← expectChar '.' r5
  let (d4, r7) ← digits1 r6
  let r8 ← expectChar ':' r7
  let (d5, r9) ← digits1 r8
  pure (d1 ++ '.' :: d2 ++ '.' :: d3 ++ '.' :: d4 ++ ':' :: d5, r9)

/-- Leftmost `webURI` match in a chunk:
`checkWebURI.FindStringSubmatch` of `gonnel.go` line 246 (the pattern
has no capture groups, so the submatch list is just the whole match). -/
def findIPPort : List Char → Option (List Char)
  | [] => none
  | c :: cs =>
    match matchIPPort (c :: cs) with
    | some (m, _) => some m
    | none => findIPPort cs

/-- Literal head of the `ngReady` pattern. -/
def litStarting : List Char := "starting web service".data

/-- Literal `addr=` of the `ngReady` pattern. -/
def litAddr : List Char := "addr=".data

/-- Literal of the `ngInUse` pattern, `address already in use`. -/
def litInUse : List Char := "address already in use".data

/-- Whether `p` is a prefix of `s` (Boolean, by character). -/
def listPre : List Char → List Char → Bool
  | [], _ => true
  | _ :: _, [] => false
  | p :: ps, s :: ss => p == s && listPre ps ss

/-- Whether `addr=` followed by an address-shaped substring starts at
the head of the input. -/
def addrHere (s : List Char) : Bool :=
  listPre litAddr s && (matchIPPort (s.drop 5)).isSome

/-- Scan rightwards for `addr=<ip:port>`, crossing only non-newline
characters: the `.*addr=(...)` tail of `ngReady`, where `.` does not
match a newline. -/
def scanAddr : List Char → Bool
  | [] => false
  | c :: cs => addrHere (c :: cs) || (!(c == '\n') && scanAddr cs)

/-- Whether the pattern `ngReady` of `gonnel.go`,
`starting web service.*addr=(\d+\.\d+\.\d+\.\d+:\d+)`, matches
anywhere in a chunk (`checkNGReady.Match`). -/
def ngReadyMatch : List Char → Bool
  | [] => false
  | c :: cs =>
    (listPre litStarting (c :: cs) && scanAddr ((c :: cs).drop litStarting.length))
      || ngReadyMatch cs

/-- Whether a literal occurs as a contiguous substring of a chunk. -/
def containsLit (lit : List Char) : List Char → Bool
  | [] => lit.isEmpty
  | c :: cs => listPre lit (c :: cs) || containsLit lit cs

/-- Whether the pattern `ngSessionLimited`,
`is limited to (\d+) simultaneous ngrok client session`, matches at the
head of the input. -/
def sessionLimitHere (s : List Char) : Bool :=
  listPre "is limited to ".data s &&
    (match digits1 (s.drop 14) with
     | none => false
     | some (_, r) => listPre " simultaneous ngrok client session".data r)

/-- Whether `ngSessionLimited` matches anywhere in a chunk. -/
def ngSessionMatch : List Char → Bool
  | [] => false
  | c :: cs => sessionLimitHere (c :: cs) || ngSessionMatch cs

/-- One iteration of the read loop of `Client.StartServer`
(`gonnel.go` lines 245 to 258) on one chunk: first the ready pattern is
tested and, on a match, the leftmost address-shaped substring is sent
on the ready channel; then the in-use pattern and the session-limit
pattern are tested, each calling `log.Fatalln` (process abort) on a
match.  The value is the list of ready emissions of this chunk paired
with the abort message when the chunk is fatal. -/
def processChunk (chunk : List Char) : List (List Char) × Option String :=
  let em := if ngReadyMatch chunk then
              match findIPPort chunk with
              | some host => [host]
              | none => []
            else []
  let fat := if containsLit litInUse chunk then some "Address already in use"
             else if ngSessionMatch chunk then some "Limit session reached for this account"
             else none
  (em, fat)

/-- The read loop of `Client.StartServer` over a sequence of delivered
chunks: chunks are processed in order; a fatal chunk aborts the process
after its own ready check already ran.  The value is every ready
emission in order, paired with the abort message if one occurred. -/
def scanChunks : List (List Char) → List (List Char) × Option String
  | [] => ([], none)
  | c :: cs =>
    match processChunk c with
    | (em, some e) => (em, some e)
    | (em, none) =>
      let (ems, f) := scanChunks cs
      (em ++ ems, f)

theorem retryLoop_allFail (step : Nat → Tunnel → Tunnel × Option String) (E : Nat → String)
    (t : Tunnel) (hstep : ∀ k, step k t = (t, some (E k))) :
    ∀ remaining attempt, retryLoop step attempt remaining t =
      ⟨t, some (E (attempt + remaining)), remaining + 1⟩ := by
  intro remaining
  induction remaining with
  | zero =>
    intro a
    simp [retryLoop, hstep a]
  | succ r ih =>
    intro a
    have harith : a + 1 + r = a + (r + 1) := by omega
    simp [retryLoop, hstep a, ih (a + 1), harith]

theorem retryLoop_firstSucc (step : Nat → Tunnel → Tunnel × Option String) (t t1 : Tunnel) :
    ∀ (k attempt remaining : Nat), k ≤ remaining →
      (∀ j, j < k → ∃ e, step (attempt + j) t = (t, some e)) →
      step (attempt + k) t = (t1, none) →
      retryLoop step attempt remaining t = ⟨t1, none, k + 1⟩ := by
  intro k
  induction k with
  | zero =>
    intro a r _ _ hs
    rw [Nat.add_zero] at hs
    cases r <;> simp [retryLoop, hs]
  | succ k ih =>
    intro a r hk hf hs
    obtain ⟨e0, he0⟩ := hf 0 (Nat.succ_pos k)
    rw [Nat.add_zero] at he0
    obtain ⟨r1, rfl⟩ : ∃ r1, r = r1 + 1 := ⟨r - 1, by omega⟩
    have hrec : retryLoop step (a + 1) r1 t = ⟨t1, none, k + 1⟩ := by
      refine ih (a + 1) r1 (by omega) (fun j hj => ?_) ?_
      · obtain ⟨e, he⟩ := hf (j + 1) (by omega)
        exact ⟨e, by rw [show a + 1 + j = a + (j + 1) by omega]; exact he⟩
      · rw [show a + 1 + k = a + (k + 1) by omega]; exact hs
    simp [retryLoop, he0, hrec]

theorem retryLoop_tunnel_of_err (step : Nat → Tunnel → Tunnel × Option String)
    (hpres : ∀ k u t1 e, step k u = (t1, some e) → t1 = u) :
    ∀ remaining attempt t, (retryLoop step attempt remaining t).err.isSome →
      (retryLoop step attempt remaining t).tunnel = t := by
  intro remaining
  induction remaining with
  | zero =>
    intro a t h
    rcases hstep : step a t with ⟨t1, e⟩
    cases e with
    | none => simp [retryLoop, hstep] at h
    | some e0 =>
      have := hpres a t t1 e0 hstep
      simp [retryLoop, hstep, this]
  | succ r ih =>
    intro a t h
    rcases hstep : step a t with ⟨t1, e⟩
    cases e with
    | none => simp [retryLoop, hstep] at h
    | some e0 =>
      have ht1 : t1 = t := hpres a t t1 e0 hstep
      subst ht1
      simp [retryLoop, hstep] at h ⊢
      exact ih (a + 1) t1 h

theorem retryLoop_tunnel_of_ok (step : Nat → Tunnel → Tunnel × Option String)
    (hpres : ∀ k u t1 e, step k u = (t1, some e) → t1 = u) :
    ∀ remaining attempt t, (retryLoop step attempt remaining t).err = none →
      ∃ k, (step (attempt + k) t).2 = none ∧
        (retryLoop step attempt remaining t).tunnel = (step (attempt + k) t).1 := by
  intro remaining
  induction remaining with
  | zero =>
    intro a t h
    rcases hstep : step a t with ⟨t1, e⟩
    cases e with
    | none => exact ⟨0, by simp [retryLoop, hstep]⟩
    | some e0 => simp [retryLoop, hstep] at h
  | succ r ih =>
    intro a t h
    rcases hstep : step a t with ⟨t1, e⟩
    cases e with
    | none => exact ⟨0, by simp [retryLoop, hstep]⟩
    | some e0 =>
      have ht1 : t1 = t := hpres a t t1 e0 hstep
      subst ht1
      simp only [retryLoop, hstep] at h ⊢
      obtain ⟨k, hk1, hk2⟩ := ih (a + 1) t1 h
      exact ⟨k + 1, by rw [show a + (k + 1) = a + 1 + k by omega]; exact ⟨hk1, hk2⟩⟩

theorem createStep_pres (api : Nat → CreateAttemptOutcome) :
    ∀ k u t1 e, (fun k u => createAttempt u (api k)) k u = (t1, some e) → t1 = u := by
  intro k u t1 e h
  cases hapi : api k <;> simp [createAttempt, hapi, CreateAttemptOutcome.errMsg] at h <;>
    exact h.1.symm

theorem closeStep_pres (api : Nat → CloseAttemptOutcome) :
    ∀ k u t1 e, (fun k u => closeAttempt u (api k)) k u = (t1, some e) → t1 = u := by
  intro k u t1 e h
  cases hapi : api k <;> simp [closeAttempt, hapi, CloseAttemptOutcome.errMsg] at h <;>
    exact h.1.symm

theorem createTunnel_allFail (capi : Nat → CreateAttemptOutcome) (t : Tunnel)
    (hc : ∀ k, (capi k).fails = true) :
    Client.CreateTunnel capi t = ⟨t, (capi 100).errMsg, 101⟩ := by
  have hstep : ∀ k, (fun k u => createAttempt u (capi k)) k t =
      (t, some (((capi k).errMsg).getD "")) := by
    intro k
    cases hk : capi k with
    | transportFail e => simp [createAttempt, CreateAttemptOutcome.errMsg, hk]
    | badStatus b => simp [createAttempt, CreateAttemptOutcome.errMsg, hk]
    | success url =>
      have := hc k
      rw [hk] at this
      simp [CreateAttemptOutcome.fails] at this
  have h := retryLoop_allFail (fun k u => createAttempt u (capi k))
    (fun k => ((capi k).errMsg).getD "") t hstep maxRetries 0
  have herr : some (((capi 100).errMsg).getD "") = (capi 100).errMsg := by
    have := hc 100
    cases hk : capi 100 <;> rw [hk] at this <;>
      simp [CreateAttemptOutcome.fails, CreateAttemptOutcome.errMsg] at this ⊢
  rw [Client.CreateTunnel, h]
  simp only [maxRetries, Nat.zero_add] at herr ⊢
  rw [herr]

theorem closeTunnel_allFail (dapi : Nat → CloseAttemptOutcome) (u : Tunnel)
    (hd : ∀ k, (dapi k).fails = true) :
    Client.CloseTunnel dapi u = ⟨u, (dapi 100).errMsg, 101⟩ := by
  have hstep : ∀ k, (fun k v => closeAttempt v (dapi k)) k u =
      (u, some (((dapi k).errMsg).getD "")) := by
    intro k
    cases hk : dapi k with
    | transportFail e => simp [closeAttempt, CloseAttemptOutcome.errMsg, hk]
    | badStatus b => simp [closeAttempt, CloseAttemptOutcome.errMsg, hk]
    | success =>
      have := hd k
      rw [hk] at this
      simp [CloseAttemptOutcome.fails] at this
  have h := retryLoop_allFail (fun k v => closeAttempt v (dapi k))
    (fun k => ((dapi k).errMsg).getD "") u hstep maxRetries 0
  have herr : some (((dapi 100).errMsg).getD "") = (dapi 100).errMsg := by
    have := hd 100
    cases hk : dapi 100 <;> rw [hk] at this <;>
      simp [CloseAttemptOutcome.fails, CloseAttemptOutcome.errMsg] at this ⊢
  rw [Client.CloseTunnel, h]
  simp only [maxRetries, Nat.zero_add] at herr ⊢
  rw [herr]

theorem createTunnel_firstSucc (api : Nat → CreateAttemptOutcome) (t : Tunnel) (k : Nat)
    (url : String) (hk : k ≤ maxRetries) (hfail : ∀ j, j < k → (api j).fails = true)
    (hsucc : api k = CreateAttemptOutcome.success url) :
    Client.CreateTunnel api t =
      ⟨{ t with remoteAddress := url, isCreated := true }, none, k + 1⟩ := by
  refine retryLoop_firstSucc (fun k u => createAttempt u (api k)) t _ k 0 maxRetries hk
    (fun j hj => ?_) ?_
  · have hf := hfail j hj
    rw [Nat.zero_add]
    cases hj2 : api j with
    | transportFail e => exact ⟨e, by simp [createAttempt, CreateAttemptOutcome.errMsg, hj2]⟩
    | badStatus b =>
      exact ⟨"error api: " ++ b, by simp [createAttempt, CreateAttemptOutcome.errMsg, hj2]⟩
    | success url2 =>
      rw [hj2] at hf
      simp [CreateAttemptOutcome.fails] at hf
  · rw [Nat.zero_add]
    simp [createAttempt, hsucc]

theorem closeTunnel_firstSucc (api : Nat → CloseAttemptOutcome) (u : Tunnel) (k : Nat)
    (hk : k ≤ maxRetries) (hfail : ∀ j, j < k → (api j).fails = true)
    (hsucc : api k = CloseAttemptOutcome.success) :
    Client.CloseTunnel api u =
      ⟨{ u with remoteAddress := "", isCreated := false }, none, k + 1⟩ := by
  refine retryLoop_firstSucc (fun k v => closeAttempt v (api k)) u _ k 0 maxRetries hk
    (fun j hj => ?_) ?_
  · have hf := hfail j hj
    rw [Nat.zero_add]
    cases hj2 : api j with
    | transportFail e => exact ⟨e, by simp [closeAttempt, CloseAttemptOutcome.errMsg, hj2]⟩
    | badStatus b =>
      exact ⟨"error api: " ++ b, by simp [closeAttempt, CloseAttemptOutcome.errMsg, hj2]⟩
    | success =>
      rw [hj2] at hf
      simp [CloseAttemptOutcome.fails] at hf
  · rw [Nat.zero_add]
    simp [closeAttempt, hsucc]

/-- C1: with a control API on which every create (or destroy) attempt
fails, `CreateTunnel` (resp. `CloseTunnel`) runs its body exactly 101
times (1 initial + 100 retries) and returns the error of the last
attempt; and whichever attempt is the first to succeed ends the loop
immediately, with no error returned. -/
theorem createTunnel_closeTunnel_retry_bound (capi : Nat → CreateAttemptOutcome)
    (dapi : Nat → CloseAttemptOutcome) (t u : Tunnel)
    (hc : ∀ k, (capi k).fails = true) (hd : ∀ k, (dapi k).fails = true) :
    ((Client.CreateTunnel capi t).attempts = 101 ∧
      (Client.CreateTunnel capi t).err = (capi 100).errMsg ∧
      (Client.CloseTunnel dapi u).attempts = 101 ∧
      (Client.CloseTunnel dapi u).err = (dapi 100).errMsg) ∧
    (∀ (api2 : Nat → CreateAttemptOutcome) (t2 : Tunnel) (k : Nat) (url : String),
      k ≤ maxRetries → (∀ j, j < k → (api2 j).fails = true) →
      api2 k = CreateAttemptOutcome.success url →
      (Client.CreateTunnel api2 t2).attempts = k + 1 ∧
        (Client.CreateTunnel api2 t2).err = none) ∧
    (∀ (api3 : Nat → CloseAttemptOutcome) (u3 : Tunnel) (k : Nat),
      k ≤ maxRetries → (∀ j, j < k → (api3 j).fails = true) →
      api3 k = CloseAttemptOutcome.success →
      (Client.CloseTunnel api3 u3).attempts = k + 1 ∧
        (Client.CloseTunnel api3 u3).err = none) := by
  refine ⟨?_, ?_, ?_⟩
  · rw [createTunnel_allFail capi t hc, closeTunnel_allFail dapi u hd]
    exact ⟨rfl, rfl, rfl, rfl⟩
  · intro api2 t2 k url hk hfail hsucc
    rw [createTunnel_firstSucc api2 t2 k url hk hfail hsucc]
    exact ⟨rfl, rfl⟩
  · intro api3 u3 k hk hfail hsucc
    rw [closeTunnel_firstSucc api3 u3 k hk hfail hsucc]
    exact ⟨rfl, rfl⟩

/-- Witness for C1: a permanently refused create and a permanently
rejected destroy each run exactly 101 attempts and surface the last
error. -/
theorem createTunnel_closeTunnel_retry_bound_w :
    (Client.CreateTunnel (fun _ => CreateAttemptOutcome.transportFail "connection refused")
        default).attempts = 101 ∧
    (Client.CreateTunnel (fun _ => CreateAttemptOutcome.transportFail "connection refused")
        default).err = some "connection refused" ∧
    (Client.CloseTunnel (fun _ => CloseAttemptOutcome.badStatus "tunnel not found")
        default).attempts = 101 ∧
    (Client.CloseTunnel (fun _ => CloseAttemptOutcome.badStatus "tunnel not found")
        default).err = some "error api: tunnel not found" := by
  have h := createTunnel_closeTunnel_retry_bound
    (fun _ => CreateAttemptOutcome.transportFail "connection refused")
    (fun _ => CloseAttemptOutcome.badStatus "tunnel not found")
    default default (fun _ => rfl) (fun _ => rfl)
  exact ⟨h.1.1, h.1.2.1, h.1.2.2.1, h.1.2.2.2⟩

/-- C5: when every attempt of `CreateTunnel` (or `CloseTunnel`) fails,
the descriptor is returned exactly as it was before the call and the
error of the terminal attempt is returned to the caller. -/
theorem createTunnel_closeTunnel_exhausted_descriptor_unchanged
    (capi : Nat → CreateAttemptOutcome) (dapi : Nat → CloseAttemptOutcome) (t u : Tunnel)
    (hc : ∀ k, (capi k).fails = true) (hd : ∀ k, (dapi k).fails = true) :
    (Client.CreateTunnel capi t).tunnel = t ∧
    (Client.CreateTunnel capi t).err = (capi 100).errMsg ∧
    (Client.CloseTunnel dapi u).tunnel = u ∧
    (Client.CloseTunnel dapi u).err = (dapi 100).errMsg := by
  rw [createTunnel_allFail capi t hc, closeTunnel_allFail dapi u hd]
  exact ⟨rfl, rfl, rfl, rfl⟩

/-- Witness for C5: a permanently failing create and destroy leave a
concrete connected descriptor untouched, flags and address included. -/
theorem createTunnel_closeTunnel_exhausted_descriptor_unchanged_w :
    (Client.CreateTunnel (fun _ => CreateAttemptOutcome.badStatus "502")
        ⟨0, "a", "4040", "", false, "", false⟩).tunnel =
      ⟨0, "a", "4040", "", false, "", false⟩ ∧
    (Client.CloseTunnel (fun _ => CloseAttemptOutcome.transportFail "eof")
        ⟨1, "b", "22", "", true, "tcp://x", true⟩).tunnel =
      ⟨1, "b", "22", "", true, "tcp://x", true⟩ := by
  have h := createTunnel_closeTunnel_exhausted_descriptor_unchanged
    (fun _ => CreateAttemptOutcome.badStatus "502")
    (fun _ => CloseAttemptOutcome.transportFail "eof")
    ⟨0, "a", "4040", "", false, "", false⟩ ⟨1, "b", "22", "", true, "tcp://x", true⟩
    (fun _ => rfl) (fun _ => rfl)
  exact ⟨h.1, h.2.2.1⟩

/-- The descriptor invariant of section 3 of the specification:
`created == true` implies a non-empty remote address and
`created == false` implies an empty one. -/
def TunnelInv (t : Tunnel) : Prop :=
  (t.isCreated = true → t.remoteAddress ≠ "") ∧
    (t.isCreated = false → t.remoteAddress = "")

/-- Counterexample to C2 as stated: `CreateTunnel` copies the decoded
`PublicURL` field into the descriptor without any emptiness check, so a
2xx response whose decoded record carries an empty public URL yields a
successful create with `created == true` and an empty remote address. -/
theorem createTunnel_empty_url_breaks_invariant :
    (Client.CreateTunnel (fun _ => CreateAttemptOutcome.success "")
        ⟨0, "a", "4040", "", false, "", false⟩).err = none ∧
    (Client.CreateTunnel (fun _ => CreateAttemptOutcome.success "")
        ⟨0, "a", "4040", "", false, "", false⟩).tunnel.isCreated = true ∧
    (Client.CreateTunnel (fun _ => CreateAttemptOutcome.success "")
        ⟨0, "a", "4040", "", false, "", false⟩).tunnel.remoteAddress = "" := by
  refine ⟨rfl, rfl, rfl⟩

/-- C2 amended: provided every successful control API response carries
a non-empty public URL (the section 6 interface contract), a successful
`CreateTunnel` leaves `created == true` with a non-empty remote
address, a successful `CloseTunnel` leaves `created == false` with an
empty remote address, and both calls preserve the descriptor
invariant whether they succeed or fail. -/
theorem createTunnel_closeTunnel_invariant (capi : Nat → CreateAttemptOutcome)
    (dapi : Nat → CloseAttemptOutcome) (t u : Tunnel)
    (hne : ∀ k url, capi k = CreateAttemptOutcome.success url → url ≠ "")
    (ht : TunnelInv t) (hu : TunnelInv u) :
    ((Client.CreateTunnel capi t).err = none →
      (Client.CreateTunnel capi t).tunnel.isCreated = true ∧
        (Client.CreateTunnel capi t).tunnel.remoteAddress ≠ "") ∧
    TunnelInv (Client.CreateTunnel capi t).tunnel ∧
    ((Client.CloseTunnel dapi u).err = none →
      (Client.CloseTunnel dapi u).tunnel.isCreated = false ∧
        (Client.CloseTunnel dapi u).tunnel.remoteAddress = "") ∧
    TunnelInv (Client.CloseTunnel dapi u).tunnel := by
  have hcreate : (Client.CreateTunnel capi t).err = none →
      (Client.CreateTunnel capi t).tunnel.isCreated = true ∧
        (Client.CreateTunnel capi t).tunnel.remoteAddress ≠ "" := by
    intro herr
    obtain ⟨k, hk1, hk2⟩ :=
      retryLoop_tunnel_of_ok _ (createStep_pres capi) maxRetries 0 t herr
    rcases hko : capi (0 + k) with e | b | url
    · rw [hko] at hk1
      simp [createAttempt, CreateAttemptOutcome.errMsg] at hk1
    · rw [hko] at hk1
      simp [createAttempt, CreateAttemptOutcome.errMsg] at hk1
    · rw [hko] at hk2
      have hurl : url ≠ "" := hne (0 + k) url hko
      rw [show (Client.CreateTunnel capi t).tunnel =
        (retryLoop (fun k u => createAttempt u (capi k)) 0 maxRetries t).tunnel from rfl, hk2]
      exact ⟨rfl, hurl⟩
  have hclose : (Client.CloseTunnel dapi u).err = none →
      (Client.CloseTunnel dapi u).tunnel.isCreated = false ∧
        (Client.CloseTunnel dapi u).tunnel.remoteAddress = "" := by
    intro herr
    obtain ⟨k, hk1, hk2⟩ :=
      retryLoop_tunnel_of_ok _ (closeStep_pres dapi) maxRetries 0 u herr
    rcases hko : dapi (0 + k) with e | b
    · rw [hko] at hk1
      simp [closeAttempt, CloseAttemptOutcome.errMsg] at hk1
    · rw [hko] at hk1
      simp [closeAttempt, CloseAttemptOutcome.errMsg] at hk1
    · rw [hko] at hk2
      rw [show (Client.CloseTunnel dapi u).tunnel =
        (retryLoop (fun k v => closeAttempt v (dapi k)) 0 maxRetries u).tunnel from rfl, hk2]
      exact ⟨rfl, rfl⟩
  refine ⟨hcreate, ?_, hclose, ?_⟩
  · rcases herr : (Client.CreateTunnel capi t).err with _ | e
    · obtain ⟨h1, h2⟩ := hcreate herr
      exact ⟨fun _ => h2, fun hfalse => by rw [h1] at hfalse; cases hfalse⟩
    · have := retryLoop_tunnel_of_err _ (createStep_pres capi) maxRetries 0 t
        (by rw [show (retryLoop (fun k u => createAttempt u (capi k)) 0 maxRetries t).err =
              (Client.CreateTunnel capi t).err from rfl, herr]; rfl)
      rw [show (Client.CreateTunnel capi t).tunnel =
        (retryLoop (fun k u => createAttempt u (capi k)) 0 maxRetries t).tunnel from rfl, this]
      exact ht
  · rcases herr : (Client.CloseTunnel dapi u).err with _ | e
    · obtain ⟨h1, h2⟩ := hclose herr
      exact ⟨fun htrue => (by rw [h1] at htrue; cases htrue), fun _ => h2⟩
    · have := retryLoop_tunnel_of_err _ (closeStep_pres dapi) maxRetries 0 u
        (by rw [show (retryLoop (fun k v => closeAttempt v (dapi k)) 0 maxRetries u).err =
              (Client.CloseTunnel dapi u).err from rfl, herr]; rfl)
      rw [show (Client.CloseTunnel dapi u).tunnel =
        (retryLoop (fun k v => closeAttempt v (dapi k)) 0 maxRetries u).tunnel from rfl, this]
      exact hu

/-- Witness for the amended C2: a create that succeeds with a real URL
and a close that succeeds both land in invariant-respecting states. -/
theorem createTunnel_closeTunnel_invariant_w :
    TunnelInv (Client.CreateTunnel (fun _ => CreateAttemptOutcome.success "https://a.ngrok.io")
      ⟨0, "a", "4040", "", false, "", false⟩).tunnel ∧
    TunnelInv (Client.CloseTunnel (fun _ => CloseAttemptOutcome.success)
      ⟨1, "b", "22", "", false, "tcp://b.ngrok.io:1234", true⟩).tunnel := by
  have h := createTunnel_closeTunnel_invariant
    (fun _ => CreateAttemptOutcome.success "https://a.ngrok.io")
    (fun _ => CloseAttemptOutcome.success)
    ⟨0, "a", "4040", "", false, "", false⟩ ⟨1, "b", "22", "", false, "tcp://b.ngrok.io:1234", true⟩
    (fun k url hk => by injection hk with hk2; rw [← hk2]; decide)
    (by constructor <;> intro h2 <;> simp at h2 ⊢)
    (by constructor <;> intro h2 <;> simp at h2 ⊢)
  exact ⟨h.2.1, h.2.2.2⟩

theorem connectResultAux_length (apis : Nat → Nat → CreateAttemptOutcome) :
    ∀ (l : List Tunnel) (i : Nat), (connectResultAux apis i l).length = l.length := by
  intro l
  induction l with
  | nil => intro i; rfl
  | cons t ts ih => intro i; simp [connectResultAux, ih (i + 1)]

theorem connectResultAux_get (apis : Nat → Nat → CreateAttemptOutcome) :
    ∀ (l : List Tunnel) (i j : Nat) (t2 : Tunnel), l.get? j = some t2 →
      (connectResultAux apis i l).get? j =
        some (if t2.isCreated then t2 else (Client.CreateTunnel (apis (i + j)) t2).tunnel) := by
  intro l
  induction l with
  | nil => intro i j t2 h; simp at h
  | cons t ts ih =>
    intro i j t2 h
    cases j with
    | zero =>
      simp at h
      subst h
      rfl
    | succ j2 =>
      rw [List.get?_cons_succ] at h
      rw [show connectResultAux apis i (t :: ts) =
        (if t.isCreated then t else (Client.CreateTunnel (apis i) t).tunnel) ::
          connectResultAux apis (i + 1) ts from rfl]
      rw [List.get?_cons_succ]
      rw [show i + (j2 + 1) = i + 1 + j2 by omega]
      exact ih (i + 1) j2 t2 h

/-- C4: for a non-empty registry, `ConnectAll` always returns success,
whatever the API does; tunnel creation is invoked exactly on the
descriptors whose created flag is false (each one passed by argument to
its own goroutine); created descriptors pass through untouched, and the
outcome of each spawned creation is visible only in that slot of the
final registry. -/
theorem connectAll_contract (apis : Nat → Nat → CreateAttemptOutcome) (c : Client)
    (h : c.tunnels ≠ []) :
    Client.ConnectAll apis c = Except.ok (connectResultAux apis 0 c.tunnels) ∧
    (∀ t2, t2 ∈ connectTargets c → t2.isCreated = false) ∧
    (∀ t2, t2 ∈ c.tunnels → t2.isCreated = false → t2 ∈ connectTargets c) ∧
    (connectResultAux apis 0 c.tunnels).length = c.tunnels.length ∧
    (∀ j t2, c.tunnels.get? j = some t2 →
      (connectResultAux apis 0 c.tunnels).get? j =
        some (if t2.isCreated then t2 else (Client.CreateTunnel (apis j) t2).tunnel)) := by
  refine ⟨?_, ?_, ?_, connectResultAux_length apis c.tunnels 0, ?_⟩
  · rw [Client.ConnectAll, if_neg]
    simp [List.length_eq_zero]
    exact h
  · intro t2 ht2
    have := List.mem_filter.mp ht2
    simpa using this.2
  · intro t2 ht2 hflag
    exact List.mem_filter.mpr ⟨ht2, by simp [hflag]⟩
  · intro j t2 hj
    have := connectResultAux_get apis c.tunnels 0 j t2 hj
    rwa [Nat.zero_add] at this

/-- Witness for C4: a registry with one already-created and one fresh
descriptor connects without error; the created one is untouched and the
fresh one carries the creation result. -/
theorem connectAll_contract_w :
    Client.ConnectAll (fun _ _ => CreateAttemptOutcome.success "https://w.ngrok.io")
      ⟨[⟨0, "a", "4040", "", false, "https://old.ngrok.io", true⟩,
        ⟨1, "b", "22", "", false, "", false⟩], "127.0.0.1:4040", false, none⟩ =
    Except.ok [⟨0, "a", "4040", "", false, "https://old.ngrok.io", true⟩,
        ⟨1, "b", "22", "", false, "https://w.ngrok.io", true⟩] := by
  have h := connectAll_contract (fun _ _ => CreateAttemptOutcome.success "https://w.ngrok.io")
    ⟨[⟨0, "a", "4040", "", false, "https://old.ngrok.io", true⟩,
      ⟨1, "b", "22", "", false, "", false⟩], "127.0.0.1:4040", false, none⟩
    (List.cons_ne_nil _ _)
  rw [h.1]
  rfl

/-- C3: the goroutine body of `DisconnectAll` captures the shared range
variable of the loop instead of receiving the descriptor as an
argument (contrast `ConnectAll`), so under the legal schedule in which
both goroutines execute only after the loop has finished, both read
the final value of the variable: with two created descriptors the
second is passed to `CloseTunnel` twice and the first is never passed,
while `DisconnectAll` still reports success. -/
theorem disconnectAll_passes_wrong_descriptors :
    ValidSched 2 (fun _ => 1) ∧
    disconnectTargets
        [⟨0, "a", "80", "", false, "https://a.ngrok.io", true⟩,
         ⟨1, "b", "22", "", false, "tcp://b.ngrok.io", true⟩] (fun _ => 1) =
      [⟨1, "b", "22", "", false, "tcp://b.ngrok.io", true⟩,
       ⟨1, "b", "22", "", false, "tcp://b.ngrok.io", true⟩] ∧
    disconnectTargets
        [⟨0, "a", "80", "", false, "https://a.ngrok.io", true⟩,
         ⟨1, "b", "22", "", false, "tcp://b.ngrok.io", true⟩] (fun i => i) =
      [⟨0, "a", "80", "", false, "https://a.ngrok.io", true⟩,
       ⟨1, "b", "22", "", false, "tcp://b.ngrok.io", true⟩] ∧
    Client.DisconnectAll
        ⟨[⟨0, "a", "80", "", false, "https://a.ngrok.io", true⟩,
          ⟨1, "b", "22", "", false, "tcp://b.ngrok.io", true⟩], "127.0.0.1:4040", false, none⟩ =
      Except.ok () := by
  refine ⟨fun i hi => ⟨?_, ?_⟩, rfl, rfl, rfl⟩
  · show i ≤ 1
    omega
  · show (1 : Nat) < 2
    omega

/-- C8: on an empty registry, `ConnectAll` and `DisconnectAll` each
return their need-at-least-one-tunnel error; the guard precedes both
spawn loops, so no create or destroy call is made under any API
behaviour or goroutine schedule. -/
theorem connectAll_disconnectAll_empty_registry (apis : Nat → Nat → CreateAttemptOutcome)
    (sched : Nat → Nat) (webUI : String) (logApi2 : Bool) (cmd : Option ProcHandle) :
    Client.ConnectAll apis ⟨[], webUI, logApi2, cmd⟩ =
      Except.error "need at least 1 tunnel to connect" ∧
    Client.DisconnectAll ⟨[], webUI, logApi2, cmd⟩ =
      Except.error "need at least 1 tunnel to disconnect" ∧
    connectTargets ⟨[], webUI, logApi2, cmd⟩ = [] ∧
    disconnectTargets [] sched = [] := by
  exact ⟨rfl, rfl, rfl, rfl⟩

theorem scanChunks_no_ready_no_emission :
    ∀ (cs : List (List Char)), (∀ c2, c2 ∈ cs → ngReadyMatch c2 = false) →
      (scanChunks cs).1 = [] := by
  intro cs
  induction cs with
  | nil => intro _; rfl
  | cons c cs2 ih =>
    intro h
    have hc := h c (List.mem_cons_self c cs2)
    rcases hp : processChunk c with ⟨em, fat⟩
    have hem : em = [] := by
      have h1 : (processChunk c).1 = [] := by simp [processChunk, hc]
      rw [hp] at h1
      exact h1
    cases fat with
    | some e => simp [scanChunks, hp, hem]
    | none =>
      rcases hq : scanChunks cs2 with ⟨ems, f⟩
      have hems : ems = [] := by
        have h2 := ih fun c2 hc2 => h c2 (List.mem_cons_of_mem c hc2)
        rw [hq] at h2
        exact h2
      simp [scanChunks, hp, hq, hem, hems]

/-- Counterexample to C6: every chunk is matched in isolation
(`checkNGReady.Match(chunk[:n])` with no carry of an unmatched tail
across reads), so a ready marker split across two consecutive chunks
matches in neither and readiness is never emitted, while the same
bytes delivered in one chunk are matched and the address extracted. -/
theorem readyMarker_split_across_chunks_not_emitted :
    scanChunks ["starting web service t=... addr=127.0".data, ".0.1:4040".data] =
      ([], none) ∧
    scanChunks ["starting web service t=... addr=127.0.0.1:4040".data] =
      (["127.0.0.1:4040".data], none) := by
  exact ⟨rfl, rfl⟩

/-- C6 amended: when a chunk contains the complete ready marker, the
scanner emits the leftmost address-shaped substring of that chunk,
exactly once over the whole stream as long as no later chunk matches
the ready pattern again; a marker split across two chunks so that
neither holds the complete pattern produces no emission at all. -/
theorem scanChunks_single_chunk_ready (c a : List Char) (rest : List (List Char))
    (hc : ngReadyMatch c = true) (ha : findIPPort c = some a)
    (hrest : ∀ c2, c2 ∈ rest → ngReadyMatch c2 = false) :
    (scanChunks (c :: rest)).1 = [a] := by
  rcases hp : processChunk c with ⟨em, fat⟩
  have hem : em = [a] := by
    have h1 : (processChunk c).1 = [a] := by simp [processChunk, hc, ha]
    rw [hp] at h1
    exact h1
  cases fat with
  | some e => simp [scanChunks, hp, hem]
  | none =>
    rcases hq : scanChunks rest with ⟨ems, f⟩
    have hems : ems = [] := by
      have h2 := scanChunks_no_ready_no_emission rest hrest
      rw [hq] at h2
      exact h2
    simp [scanChunks, hp, hq, hem, hems]

/-- Witness for the amended C6: the marker delivered whole in the first
chunk, followed by an ordinary log chunk, emits the control address
exactly once. -/
theorem scanChunks_single_chunk_ready_w :
    (scanChunks ["starting web service t=... addr=127.0.0.1:4040".data,
        "t=... msg=started tunnel".data]).1 = ["127.0.0.1:4040".data] := by
  refine scanChunks_single_chunk_ready _ _ _ rfl rfl ?_
  intro c2 hc2
  rw [List.mem_singleton] at hc2
  subst hc2
  rfl

/-- Counterexample to C7: the read loop tests the ready pattern before
the in-use pattern, so a chunk containing both markers emits readiness
and only then aborts; the in-use condition does not pre-empt the
emission as the claim requires. -/
theorem ready_and_inuse_chunk_still_emits :
    scanChunks
        ["starting web service t=x addr=127.0.0.1:4040 address already in use".data] =
      (["127.0.0.1:4040".data], some "Address already in use") := by
  rfl

/-- C7 amended: a chunk matching both the ready marker and the in-use
marker emits readiness first (the ready pattern is tested first) and
then terminates the process abnormally with the in-use abort: the
fatal condition ends the session but does not suppress the emission. -/
theorem ready_and_inuse_chunk_emits_then_fatal (c a : List Char)
    (hc : ngReadyMatch c = true) (ha : findIPPort c = some a)
    (hin : containsLit litInUse c = true) :
    scanChunks [c] = ([a], some "Address already in use") := by
  simp [scanChunks, processChunk, hc, ha, hin]

/-- Witness for the amended C7: a concrete chunk carrying both markers
emits its address and aborts. -/
theorem ready_and_inuse_chunk_emits_then_fatal_w :
    scanChunks
        ["starting web service t=y addr=10.0.0.1:4041 and address already in use".data] =
      (["10.0.0.1:4041".data], some "Address already in use") := by
  exact ready_and_inuse_chunk_emits_then_fatal _ _ rfl rfl rfl

/-- Counterexample to C9: with no running subprocess, `runningCmd` is
nil and both `Close` and `Signal` dereference it: the call faults
(embedded as `none`), it does not return an error value to the caller. -/
theorem close_signal_without_process_faults :
    Client.Close ⟨[], "", false, none⟩ = none ∧
    Client.Signal ⟨[], "", false, none⟩ = none := by
  exact ⟨rfl, rfl⟩

/-- C9 amended: calling `Close` or `Signal` when no subprocess was
started dereferences the nil command handle and crashes with a
run-time fault rather than returning an error; only when a process
handle exists is the kill or signal OS-call result, failure included,
returned to the caller. -/
theorem close_signal_dispatch (c : Client) :
    (c.runningCmd = none → Client.Close c = none ∧ Client.Signal c = none) ∧
    (∀ p, c.runningCmd = some p →
      Client.Close c = some p.killResult ∧ Client.Signal c = some p.signalResult) := by
  refine ⟨fun h => ?_, fun p h => ?_⟩ <;> simp [Client.Close, Client.Signal, h]

/-- Witness for the amended C9: with a live process handle whose kill
call fails, `Close` returns that OS error to the caller. -/
theorem close_signal_dispatch_w :
    Client.Close ⟨[], "", false, some ⟨some "os: process already finished", none⟩⟩ =
      some (some "os: process already finished") := by
  exact ((close_signal_dispatch
    ⟨[], "", false, some ⟨some "os: process already finished", none⟩⟩).2
    ⟨some "os: process already finished", none⟩ rfl).1

/-- C10: `Protocol.String` returns `"http"`, `"tcp"` and `"tls"` on the
three declared constants, and on every other value of the unconstrained
integer type `Protocol` the array indexing `protocols[p]` is out of
range: a run-time fault, embedded as `none`. -/
theorem protocol_string_total_only_on_declared :
    Protocol.String HTTP = some "http" ∧
    Protocol.String TCP = some "tcp" ∧
    Protocol.String TLS = some "tls" ∧
    (∀ p : Int, p < 0 ∨ 3 ≤ p → Protocol.String p = none) := by
  refine ⟨rfl, rfl, rfl, ?_⟩
  intro p hp
  rcases hp with hp | hp
  · simp [Protocol.String, hp]
  · rw [Protocol.String, if_neg (by omega)]
    have h3 : protocols.length ≤ p.toNat := by
      simp only [protocols, List.length_cons, List.length_nil]
      omega
    exact List.get?_eq_none.mpr h3

/-- Witness for C10: the undeclared protocol value 7 faults. -/
theorem protocol_string_total_only_on_declared_w :
    Protocol.String 7 = none := by
  exact protocol_string_total_only_on_declared.2.2.2 7 (Or.inr (by omega))

